import Mathlib

/-!
Verification development for the InnsynAI Teams bridge.

The repository contains several iterations of one Deno service.  Each
iteration is embedded here as a pure Lean function from an abstract
environment (the responses of the external collaborators: tenant
directory, token endpoint, chat platform, answer service) and an inbound
HTTP request to the HTTP result together with the list of outbound calls
performed, in order.

Embedded variants:
* `P1`   — the "FINAL (RAG + Feedback, strict & correct)" iteration
           (multi-tenant JWT verification via the directory bot lookup,
           feedback routing, single final card POST);
* `P2`   — the "FINAL (STORE / ADD-TO-TEAMS MODE, NO LEGACY)" iteration
           (single global bot identity, placeholder POST then PUT patch,
           feedback routing, token-error handling);
* `Diag` — the diagnostic store-mode build inside `teams-bridge.ts`
           (placeholder POST, then PUT of the answer when the platform
           returned a message id, otherwise a fresh POST of the answer).
-/

namespace TeamsBridge

/-- Credential record returned by the tenant-directory bot lookup:
the fields of the lookup response (tenant_id, bot_app_id, bot_app_password). -/
structure TenantCredential where
  tenant_id : String
  bot_app_id : String
  bot_app_password : String
  deriving Repr, DecidableEq

/-- Abstract inbound bearer token: the decoded audience claim, the issuer
claim, and whether its signature verifies against the platform key set. -/
structure Jwt where
  aud : String
  iss : String
  sigValid : Bool
  deriving Repr, DecidableEq

/-- The fixed Bot Framework issuer every variant passes to jwtVerify. -/
def ISSUER : String := "https://api.botframework.com"

/-- Result of jose.jwtVerify with a given expected audience: the signature
must be valid and the issuer and audience claims must match. -/
def jwtVerifyOk (t : Jwt) (audience : String) : Bool :=
  t.sigValid && t.iss == ISSUER && t.aud == audience

/-- The interactive payload (activity.value) of a feedback submit action. -/
structure FeedbackValue where
  action : String
  qa_log_id : Option String
  feedback : Option String
  teams_user_id : Option String
  comment : Option String
  tenant_id : Option String
  deriving Repr, DecidableEq

/-- The inbound Teams activity envelope, with the fields the handlers read.
Optional fields model absent JSON members. -/
structure Activity where
  type : Option String
  id : Option String
  text : Option String
  fromId : Option String
  serviceUrl : Option String
  conversationId : Option String
  conversationTenantId : Option String
  channelDataTenantId : Option String
  replyToId : Option String
  value : Option FeedbackValue
  deriving Repr, DecidableEq

/-- The Authorization header: whether it starts with the Bearer scheme, and
the token obtained by slicing off the scheme. -/
structure AuthHeader where
  isBearer : Bool
  token : Jwt
  deriving Repr, DecidableEq

/-- An inbound HTTP request to the /teams route.  `body = none` models a
body that is not parseable JSON; `auth = none` a missing header. -/
structure Request where
  method : String
  auth : Option AuthHeader
  body : Option Activity
  deriving Repr, DecidableEq

/-- JavaScript truthiness of an optional string: null/undefined and the
empty string are falsy. -/
def jsTruthy : Option String → Bool
  | none => false
  | some s => !(s == "")

/-- JavaScript `a || b` restricted to the use `if (!x)` made of its result:
the first truthy operand, or none when both are falsy. -/
def firstTruthy (a b : Option String) : Option String :=
  if jsTruthy a then a else if jsTruthy b then b else none

/-- Keep an optional string only when it is truthy. -/
def truthyVal (a : Option String) : Option String :=
  if jsTruthy a then a else none

/-- JavaScript `a ?? b` on optional strings (nullish coalescing). -/
def jsCoalesce (a b : Option String) : Option String :=
  match a with
  | some x => some x
  | none => b

/-- JavaScript String.prototype.trim: remove leading and trailing
whitespace.  Defined by structural recursion on the character list so that
it evaluates on concrete inputs. -/
def jsTrim (s : String) : String :=
  String.mk (((s.toList.dropWhile Char.isWhitespace).reverse.dropWhile
    Char.isWhitespace).reverse)

/-- The JSON body of an outbound platform message (POST or PUT): the plain
text, the replyToId, and the adaptive-card attachment when present. -/
structure MessagePayload where
  text : Option String
  replyToId : Option String
  hasCard : Bool
  cardText : Option String
  deriving Repr, DecidableEq

/-- The JSON body of an outbound feedback-endpoint call. -/
structure FeedbackBody where
  qa_log_id : Option String
  feedback : Option String
  tenant_id : String
  source : String
  teams_user_id : Option String
  comment : Option String
  deriving Repr, DecidableEq

/-- One outbound call of the service, in the order it is issued. -/
inductive Call where
  | jwksFetch
  | dirBotLookup (bot_app_id : String)
  | dirOrgLookup (teams_tenant_id : Option String) (auto_provision : Bool)
  | mintToken (authority : Option String) (client_id : String)
  | ragAsk (tenant : Option String) (question : Option String)
  | ragFeedback (body : FeedbackBody)
  | platformSend (method : String) (serviceUrl : Option String)
      (conversationId : String) (activityId : Option String) (payload : MessagePayload)
  deriving Repr, DecidableEq

/-- Responses of the external collaborators, fixed for one request: the
tenant directory (by bot id, by org id with and without auto-provision),
the token endpoint, the platform response to the placeholder POST, and the
answer service. -/
structure Env where
  botDir : String → Option TenantCredential
  orgDir : String → Option String
  orgDirAuto : String → Option String
  mint : Option String → String → String → Option String
  mintOk : Bool
  placeholderOk : Bool
  placeholderId : Option String
  ragOk : Bool
  ragAnswer : Option String
  ragQaLogId : Option String
  ragStatus : Option String
  botAppId : String
  botAppPassword : String
  connectUrl : Option String

/-- An HTTP response: status code and body text. -/
structure HttpResponse where
  status : Nat
  body : String
  deriving Repr, DecidableEq

/-- Outcome of one request: a response, or an uncaught exception. -/
inductive HResult where
  | resp (r : HttpResponse)
  | thrown
  deriving Repr, DecidableEq

/-- The generic success response `new Response("ok")`. -/
def okResp : HResult := .resp ⟨200, "ok"⟩

/-- Whether a call is an outbound platform message send (POST or PUT). -/
def Call.isSend : Call → Bool
  | .platformSend _ _ _ _ _ => true
  | _ => false

/-- Whether a call is a credential-minting token exchange. -/
def Call.isMint : Call → Bool
  | .mintToken _ _ => true
  | _ => false

/-- Whether a call is an answer-service ask (rag-query) request. -/
def Call.isAsk : Call → Bool
  | .ragAsk _ _ => true
  | _ => false

/-- Whether a call is an answer-service feedback request. -/
def Call.isFeedback : Call → Bool
  | .ragFeedback _ => true
  | _ => false

/-- The platform message sends of a trace. -/
def sendsOf (cs : List Call) : List Call := cs.filter Call.isSend

/-- The credential mints of a trace. -/
def mintsOf (cs : List Call) : List Call := cs.filter Call.isMint

/-- The answer-service ask calls of a trace. -/
def asksOf (cs : List Call) : List Call := cs.filter Call.isAsk

/-- The feedback-endpoint calls of a trace. -/
def feedbacksOf (cs : List Call) : List Call := cs.filter Call.isFeedback

/-- Whether a call is a platform update issued with the PUT method. -/
def Call.isPut : Call → Bool
  | .platformSend m _ _ _ _ => m == "PUT"
  | _ => false

/-- The PUT updates of a trace. -/
def putsOf (cs : List Call) : List Call := cs.filter Call.isPut

/-- Outcome of the multi-tenant inbound verification. -/
inductive VerifyOutcome where
  | ok (creds : TenantCredential)
  | authError
  deriving Repr, DecidableEq

namespace P1

/-- part_001 `verifyJwt`: decode the token's audience claim, resolve it via
the tenant directory bot lookup, throw "Unknown bot" when it does not
resolve, and only then verify signature, issuer and audience against the
key set.  The credential is returned only when both steps succeed. -/
def verifyJwt (env : Env) (t : Jwt) : VerifyOutcome × List Call :=
  match env.botDir t.aud with
  | none => (.authError, [Call.dirBotLookup t.aud])
  | some tenantInfo =>
      if jwtVerifyOk t t.aud then
        (.ok tenantInfo, [Call.dirBotLookup t.aud, Call.jwksFetch])
      else
        (.authError, [Call.dirBotLookup t.aud, Call.jwksFetch])

/-- part_001 feedback forwarding body: the tenant_id is the directory-resolved
internal tenant id; user id falls back from the payload to the sender. -/
def feedbackBody (tenantId : String) (a : Activity) (v : FeedbackValue) : FeedbackBody :=
  { qa_log_id := v.qa_log_id
    feedback := v.feedback
    tenant_id := tenantId
    source := "teams"
    teams_user_id := jsCoalesce v.teams_user_id a.fromId
    comment := v.comment }

/-- part_001 message path after tenant resolution: drop events without text,
call the answer service with the trimmed text, mint a token against the AAD
tenant authority, and POST the adaptive-card reply. -/
def messagePath (env : Env) (activity : Activity) (creds : TenantCredential)
    (aadTenantId tenantId : String) (cs : List Call) : HResult × List Call :=
  match activity.text with
  | none => (okResp, cs)
  | some t =>
    if t == "" then (okResp, cs) else
    let cs := cs ++ [Call.ragAsk (some tenantId) (some (jsTrim t))]
    let cs := cs ++ [Call.mintToken (some aadTenantId) creds.bot_app_id]
    match activity.conversationId with
    | none => (.thrown, cs)
    | some convId =>
      let payload : MessagePayload :=
        { text := none
          replyToId := jsCoalesce activity.replyToId activity.id
          hasCard := true
          cardText := some (env.ragAnswer.getD "No answer found.") }
      (okResp, cs ++ [Call.platformSend "POST" activity.serviceUrl convId none payload])

/-- part_001 `handleTeams`: parse, require the Authorization header, verify
the JWT (401 on failure), resolve the AAD tenant id and the internal tenant,
route feedback actions to the feedback endpoint, and otherwise answer via
the RAG query and a single card POST. -/
def handleTeams (env : Env) (req : Request) : HResult × List Call :=
  if req.method != "POST" then (okResp, []) else
  match req.body with
  | none => (okResp, [])
  | some activity =>
    match req.auth with
    | none => (okResp, [])
    | some auth =>
      match (verifyJwt env auth.token).1 with
      | .authError => (.resp ⟨401, "unauthorized"⟩, (verifyJwt env auth.token).2)
      | .ok creds =>
        let cs := (verifyJwt env auth.token).2
        match firstTruthy activity.channelDataTenantId activity.conversationTenantId with
        | none => (okResp, cs)
        | some aadTenantId =>
          let cs := cs ++ [Call.dirOrgLookup (some aadTenantId) false]
          match truthyVal (env.orgDir aadTenantId) with
          | none => (okResp, cs)
          | some tenantId =>
            match activity.value with
            | some v =>
              if v.action == "feedback" then
                (okResp, cs ++ [Call.ragFeedback (feedbackBody tenantId activity v)])
              else
                messagePath env activity creds aadTenantId tenantId cs
            | none =>
              messagePath env activity creds aadTenantId tenantId cs

end P1

namespace P2

/-- part_002 `verifyJwt` (single global bot): verify signature and issuer
against the fixed configured audience TEAMS_BOT_APP_ID; no directory
lookup is involved. -/
def verifyJwt (env : Env) (t : Jwt) : Bool × List Call :=
  (jwtVerifyOk t env.botAppId, [Call.jwksFetch])

/-- Error raised by the credential minter when the token-endpoint response
carries no access token. -/
inductive TokenError where
  | botTokenFailure
  deriving Repr, DecidableEq

/-- part_002 `getBotAccessToken`: client-credentials exchange against the AAD
tenant's authority with the global bot credentials; throws a token error
when the response has no access_token field. -/
def getBotAccessToken (env : Env) (aadTenantId : String) :
    Except TokenError String × List Call :=
  match env.mint (some aadTenantId) env.botAppId env.botAppPassword with
  | none => (.error .botTokenFailure, [Call.mintToken (some aadTenantId) env.botAppId])
  | some tok => (.ok tok, [Call.mintToken (some aadTenantId) env.botAppId])

/-- The placeholder message body sent by part_002 phase one. -/
def placeholderPayload (a : Activity) : MessagePayload :=
  { text := some "⏳ Working on it…"
    replyToId := jsCoalesce a.replyToId a.id
    hasCard := false
    cardText := none }

/-- part_002 `sendPlaceholder`: return null without sending when serviceUrl
or the conversation id is missing, otherwise POST the placeholder and
report the platform-assigned activity id of the response. -/
def sendPlaceholder (env : Env) (a : Activity) : Option String × List Call :=
  match a.serviceUrl, a.conversationId with
  | some su, some cid =>
    if su == "" || cid == "" then (none, [])
    else (env.placeholderId,
          [Call.platformSend "POST" (some su) cid none (placeholderPayload a)])
  | _, _ => (none, [])

/-- The answer text of the part_002 patch card: the RAG answer (with default)
plus the optional setup link when the RAG status is no_documents. -/
def answerCardText (env : Env) : String :=
  let base := env.ragAnswer.getD "No answer found."
  match env.ragStatus, env.connectUrl with
  | some st, some cu =>
      if st == "no_documents" && !(cu == "") then base ++ "\n\nSetup: " ++ cu else base
  | _, _ => base

/-- The card body part_002 PUTs over the placeholder in phase two. -/
def cardPayload (env : Env) : MessagePayload :=
  { text := none
    replyToId := none
    hasCard := true
    cardText := some (answerCardText env) }

/-- part_002 `patchWithCard`: PUT the adaptive card over the placeholder
activity; skipped when serviceUrl or conversation id is missing. -/
def patchWithCard (env : Env) (a : Activity) (pid : String) : List Call :=
  match a.serviceUrl, a.conversationId with
  | some su, some cid =>
    if su == "" || cid == "" then []
    else [Call.platformSend "PUT" (some su) cid (some pid) (cardPayload env)]
  | _, _ => []

/-- part_002 feedback forwarding body: the tenant_id is the directory-resolved
internal tenant id; the user id is taken from the activity sender only. -/
def feedbackBody (tenantId : String) (a : Activity) (v : FeedbackValue) : FeedbackBody :=
  { qa_log_id := v.qa_log_id
    feedback := v.feedback
    tenant_id := tenantId
    source := "teams"
    teams_user_id := a.fromId
    comment := none }

/-- part_002 message path after tenant resolution: drop events whose text is
missing or trims to empty, mint a token (reply ok on token failure without
sending), POST the placeholder, call the answer service with the trimmed
text, and on success PUT the card over the placeholder (minting a fresh
token, whose failure at this point is uncaught). -/
def messagePath (env : Env) (activity : Activity) (aadTenantId tenantId : String)
    (cs : List Call) : HResult × List Call :=
  match activity.text with
  | none => (okResp, cs)
  | some t =>
    if jsTrim t == "" then (okResp, cs) else
    match (getBotAccessToken env aadTenantId).1 with
    | .error _ => (okResp, cs ++ (getBotAccessToken env aadTenantId).2)
    | .ok _ =>
      let cs := cs ++ (getBotAccessToken env aadTenantId).2
      let p := sendPlaceholder env activity
      let cs := cs ++ p.2
      let cs := cs ++ [Call.ragAsk (some tenantId) (some (jsTrim t))]
      if !env.ragOk then (okResp, cs) else
      match truthyVal p.1 with
      | none => (okResp, cs)
      | some pid =>
        match (getBotAccessToken env aadTenantId).1 with
        | .error _ => (.thrown, cs ++ (getBotAccessToken env aadTenantId).2)
        | .ok _ =>
          (okResp, cs ++ (getBotAccessToken env aadTenantId).2 ++ patchWithCard env activity pid)

/-- part_002 `handleTeams`: parse (success-shaped on bad JSON), require a
Bearer Authorization header (success-shaped when absent), verify the JWT
(401 on failure), resolve the AAD tenant id and the internal tenant with
auto-provision (success-shaped when unresolved), route feedback actions,
and otherwise run the two-phase relay. -/
def handleTeams (env : Env) (req : Request) : HResult × List Call :=
  if req.method != "POST" then (okResp, []) else
  match req.body with
  | none => (okResp, [])
  | some activity =>
    match req.auth with
    | none => (okResp, [])
    | some auth =>
      if !auth.isBearer then (okResp, []) else
      if !(verifyJwt env auth.token).1 then
        (.resp ⟨401, "unauthorized"⟩, (verifyJwt env auth.token).2)
      else
        let cs := (verifyJwt env auth.token).2
        match firstTruthy activity.channelDataTenantId activity.conversationTenantId with
        | none => (okResp, cs)
        | some aadTenantId =>
          let cs := cs ++ [Call.dirOrgLookup (some aadTenantId) true]
          match truthyVal (env.orgDirAuto aadTenantId) with
          | none => (okResp, cs)
          | some tenantId =>
            match activity.value with
            | some v2 =>
              if v2.action == "feedback" then
                (okResp, cs ++ [Call.ragFeedback (feedbackBody tenantId activity v2)])
              else
                messagePath env activity aadTenantId tenantId cs
            | none =>
              messagePath env activity aadTenantId tenantId cs

end P2

namespace Diag

/-- Diagnostic-build `verifyJwt`: signature and issuer check against the
fixed configured audience; its failure is not caught by the handler. -/
def verifyJwt (env : Env) (t : Jwt) : Bool × List Call :=
  (jwtVerifyOk t env.botAppId, [Call.jwksFetch])

/-- Diagnostic-build `getBotAccessToken`: mint against the AAD tenant
authority with the global bot credentials; throws (uncaught) when the
response has no access token. -/
def getBotAccessToken (env : Env) (aad : Option String) : Option String × List Call :=
  (env.mint aad env.botAppId env.botAppPassword, [Call.mintToken aad env.botAppId])

/-- The diagnostic-build placeholder message body (no replyToId). -/
def placeholderPayload : MessagePayload :=
  { text := some "⏳ Working on it…", replyToId := none, hasCard := false, cardText := none }

/-- The diagnostic-build final message body: plain text with the RAG answer. -/
def finalPayload (env : Env) : MessagePayload :=
  { text := some (env.ragAnswer.getD "No answer found.")
    replyToId := none
    hasCard := false
    cardText := none }

/-- Diagnostic-build `handleTeams`: parse (uncaught throw on bad JSON),
success-shaped when the Bearer header is absent, verify the JWT (uncaught
throw on failure), resolve the tenant with auto-provision, mint, POST the
placeholder, call the answer service with the raw text, then PUT the final
text over the placeholder id when one was returned, otherwise POST the
final text as a fresh message. -/
def handleTeams (env : Env) (req : Request) : HResult × List Call :=
  match req.body with
  | none => (.thrown, [])
  | some activity =>
    match req.auth with
    | none => (okResp, [])
    | some auth =>
      if !auth.isBearer then (okResp, []) else
      if !(verifyJwt env auth.token).1 then (.thrown, (verifyJwt env auth.token).2) else
        let cs := (verifyJwt env auth.token).2
        let aad := firstTruthy activity.channelDataTenantId activity.conversationTenantId
        let cs := cs ++ [Call.dirOrgLookup aad true]
        let tenantId := match aad with
          | some a2 => env.orgDirAuto a2
          | none => none
        match (getBotAccessToken env aad).1 with
        | none => (.thrown, cs ++ (getBotAccessToken env aad).2)
        | some _ =>
          let cs := cs ++ (getBotAccessToken env aad).2
          match activity.conversationId with
          | none => (.thrown, cs)
          | some convId =>
            let cs := cs ++
              [Call.platformSend "POST" activity.serviceUrl convId none placeholderPayload]
            let cs := cs ++ [Call.ragAsk tenantId activity.text]
            match truthyVal env.placeholderId with
            | some pid =>
              (okResp, cs ++
                [Call.platformSend "PUT" activity.serviceUrl convId (some pid)
                  (finalPayload env)])
            | none =>
              (okResp, cs ++
                [Call.platformSend "POST" activity.serviceUrl convId none (finalPayload env)])

end Diag

namespace P3

/-- part_003 `verifyJwt` (textually identical to part_001's): resolve the
decoded audience via the directory bot lookup, throw "Unknown bot" when it
does not resolve, then verify signature, issuer and audience. -/
def verifyJwt (env : Env) (t : Jwt) : VerifyOutcome × List Call :=
  match env.botDir t.aud with
  | none => (.authError, [Call.dirBotLookup t.aud])
  | some tenantInfo =>
      if jwtVerifyOk t t.aud then
        (.ok tenantInfo, [Call.dirBotLookup t.aud, Call.jwksFetch])
      else
        (.authError, [Call.dirBotLookup t.aud, Call.jwksFetch])

/-- part_003 `getBotAccessToken`: client-credentials exchange against the
AAD tenant's authority with the directory credential; returns
`(await res.json()).access_token` with no presence check, so an absent
access token yields `none` without any error being raised. -/
def getBotAccessToken (env : Env) (aadTenantId : String) (creds : TenantCredential) :
    Option String × List Call :=
  (env.mint (some aadTenantId) creds.bot_app_id creds.bot_app_password,
   [Call.mintToken (some aadTenantId) creds.bot_app_id])

/-- part_003 feedback forwarding body (same shape as part_002's). -/
def feedbackBody (tenantId : String) (a : Activity) (v : FeedbackValue) : FeedbackBody :=
  { qa_log_id := v.qa_log_id
    feedback := v.feedback
    tenant_id := tenantId
    source := "teams"
    teams_user_id := a.fromId
    comment := none }

/-- The part_003 placeholder message body (same shape as part_002's). -/
def placeholderPayload (a : Activity) : MessagePayload :=
  { text := some "⏳ Working on it…"
    replyToId := jsCoalesce a.replyToId a.id
    hasCard := false
    cardText := none }

/-- The part_003 final adaptive-card body carrying the RAG answer. -/
def cardPayload (env : Env) : MessagePayload :=
  { text := none
    replyToId := none
    hasCard := true
    cardText := some (env.ragAnswer.getD "No answer found.") }

/-- part_003 message path after tenant resolution: drop events without
text, mint a token (its absence is not checked), POST the placeholder
(crashing when the conversation id is missing), then — in a detached async
closure whose completion the response does not await, but whose calls are
still issued in this order — query the answer service with the trimmed text
and PATCH the placeholder activity id (unchecked: it may be absent) with
the answer card, reusing the initially minted token. -/
def messagePath (env : Env) (activity : Activity) (creds : TenantCredential)
    (aadTenantId tenantId : String) (cs : List Call) : HResult × List Call :=
  match activity.text with
  | none => (okResp, cs)
  | some t =>
    if t == "" then (okResp, cs) else
    let cs := cs ++ (getBotAccessToken env aadTenantId creds).2
    match activity.conversationId with
    | none => (.thrown, cs)
    | some convId =>
      let cs := cs ++
        [Call.platformSend "POST" activity.serviceUrl convId none
          (placeholderPayload activity)]
      let cs := cs ++ [Call.ragAsk (some tenantId) (some (jsTrim t))]
      (okResp, cs ++
        [Call.platformSend "PATCH" activity.serviceUrl convId env.placeholderId
          (cardPayload env)])

/-- part_003 `handleTeams`: parse (success-shaped on bad JSON), require an
Authorization header (success-shaped when absent), verify the JWT via the
directory (401 on failure), resolve the AAD tenant id and the internal
tenant (success-shaped when unresolved), route feedback actions, and
otherwise run the placeholder-then-PATCH relay. -/
def handleTeams (env : Env) (req : Request) : HResult × List Call :=
  if req.method != "POST" then (okResp, []) else
  match req.body with
  | none => (okResp, [])
  | some activity =>
    match req.auth with
    | none => (okResp, [])
    | some auth =>
      match (verifyJwt env auth.token).1 with
      | .authError => (.resp ⟨401, "unauthorized"⟩, (verifyJwt env auth.token).2)
      | .ok creds =>
        let cs := (verifyJwt env auth.token).2
        match firstTruthy activity.channelDataTenantId activity.conversationTenantId with
        | none => (okResp, cs)
        | some aadTenantId =>
          let cs := cs ++ [Call.dirOrgLookup (some aadTenantId) false]
          match truthyVal (env.orgDir aadTenantId) with
          | none => (okResp, cs)
          | some tenantId =>
            match activity.value with
            | some v =>
              if v.action == "feedback" then
                (okResp, cs ++ [Call.ragFeedback (feedbackBody tenantId activity v)])
              else
                messagePath env activity creds aadTenantId tenantId cs
            | none =>
              messagePath env activity creds aadTenantId tenantId cs

end P3

namespace TB1

/-- Remove one or more trailing slashes, as the regex replace with
a trailing-slash pattern does in the first teams-bridge document. -/
def stripTrailingSlashes (s : String) : String :=
  String.mk ((s.toList.reverse.dropWhile (fun c => c == '/')).reverse)

/-- The part of a URL before the first question mark: `url.split("?")[0]`. -/
def beforeQueryString (s : String) : String :=
  String.mk (s.toList.takeWhile (fun c => !(c == '?')))

/-- Structural string prefix test (JavaScript `String.prototype.startsWith`). -/
def startsWithStr (s p : String) : Bool :=
  s.toList.take p.toList.length == p.toList

/-- Whether a character is a hexadecimal digit (either case). -/
def isHexChar (c : Char) : Bool :=
  c.isDigit || (decide (Char.ofNat 97 ≤ c) && decide (c ≤ Char.ofNat 102)) ||
    (decide (Char.ofNat 65 ≤ c) && decide (c ≤ Char.ofNat 70))

/-- Test for a 36-character segment of hex digits and hyphens, the GUID
pattern of the serviceUrl normalization. -/
def isGuidSegment (s : String) : Bool :=
  s.toList.length == 36 && s.toList.all (fun c => isHexChar c || c == '-')

/-- teams-bridge.ts (first document) `normalizeServiceUrl`: trim, strip
trailing slashes, drop any query string, and remove a trailing GUID
segment after the EMEA base URL. -/
def normalizeServiceUrl (raw : String) : String :=
  if raw == "" then "" else
  let url := jsTrim raw
  let url := stripTrailingSlashes url
  let url := beforeQueryString url
  let emeaBase := "https://smba.trafficmanager.net/emea"
  if startsWithStr url (emeaBase ++ "/") then
    let suffix := String.mk (url.toList.drop (emeaBase.toList.length + 1))
    if isGuidSegment suffix then emeaBase else url
  else url

/-- teams-bridge.ts (first document) `verifyBotFrameworkJwt`: require a
Bearer header, require a non-empty string audience, resolve it via the
directory bot lookup (fail closed), then verify signature, issuer and
audience. -/
def verifyBotFrameworkJwt (env : Env) (auth : Option AuthHeader) :
    VerifyOutcome × List Call :=
  match auth with
  | none => (.authError, [])
  | some a =>
    if !a.isBearer then (.authError, []) else
    if a.token.aud == "" then (.authError, []) else
    match env.botDir a.token.aud with
    | none => (.authError, [Call.dirBotLookup a.token.aud])
    | some tenantInfo =>
      if jwtVerifyOk a.token a.token.aud then
        (.ok tenantInfo, [Call.dirBotLookup a.token.aud, Call.jwksFetch])
      else
        (.authError, [Call.dirBotLookup a.token.aud, Call.jwksFetch])

/-- teams-bridge.ts (first document) `getBotFrameworkToken`: mint against
the fixed botframework.com authority; throws when the HTTP response is not
ok (`none` result), otherwise returns the access_token field, which is not
checked for presence. -/
def getBotFrameworkToken (env : Env) (id secret : String) :
    Option (Option String) × List Call :=
  (if env.mintOk then some (env.mint (some "botframework.com") id secret) else none,
   [Call.mintToken (some "botframework.com") id])

/-- The plain-text reply body of the first teams-bridge document. -/
def replyPayload (a : Activity) (text : String) : MessagePayload :=
  { text := some text
    replyToId := jsCoalesce a.replyToId a.id
    hasCard := false
    cardText := none }

/-- teams-bridge.ts (first document) `sendTeamsReply`: silently skip when
serviceUrl or the conversation id is missing, normalize the serviceUrl,
mint a token (whose failure propagates: first component false), and POST
the plain-text reply.  Every send in this document therefore mints first. -/
def sendTeamsReply (env : Env) (a : Activity) (text : String) (creds : TenantCredential) :
    Bool × List Call :=
  match a.serviceUrl with
  | none => (true, [])
  | some su0 =>
    if su0 == "" then (true, []) else
    match a.conversationId with
    | none => (true, [])
    | some cid =>
      if cid == "" then (true, []) else
      let su := normalizeServiceUrl su0
      match (getBotFrameworkToken env creds.bot_app_id creds.bot_app_password).1 with
      | none => (false, (getBotFrameworkToken env creds.bot_app_id creds.bot_app_password).2)
      | some _tok =>
        (true, (getBotFrameworkToken env creds.bot_app_id creds.bot_app_password).2 ++
          [Call.platformSend "POST" (some su) cid none (replyPayload a text)])

/-- teams-bridge.ts (first document) `handleTeams`: ok on GET, 405
otherwise for non-POST; JWT verification FIRST (401 on failure), then
parse (400 on bad JSON), ignore non-message or textless activities, 400
when the channelData tenant id is missing, send a "not configured" notice
when the directory does not resolve the tenant, otherwise query the answer
service (plain failure text on error) and send the answer. -/
def handleTeams (env : Env) (req : Request) : HResult × List Call :=
  if req.method == "GET" then (.resp ⟨200, "ok"⟩, []) else
  if req.method != "POST" then (.resp ⟨405, "method not allowed"⟩, []) else
  match (verifyBotFrameworkJwt env req.auth).1 with
  | .authError => (.resp ⟨401, "unauthorized"⟩, (verifyBotFrameworkJwt env req.auth).2)
  | .ok creds =>
    let cs := (verifyBotFrameworkJwt env req.auth).2
    match req.body with
    | none => (.resp ⟨400, "bad request"⟩, cs)
    | some activity =>
      match activity.text with
      | none => (.resp ⟨200, "ignored"⟩, cs)
      | some t =>
        if !(activity.type == some "message") || t == "" then
          (.resp ⟨200, "ignored"⟩, cs)
        else
          match truthyVal activity.channelDataTenantId with
          | none => (.resp ⟨400, "bad request"⟩, cs)
          | some aadTenantId =>
            let cs := cs ++ [Call.dirOrgLookup (some aadTenantId) false]
            match truthyVal (env.orgDir aadTenantId) with
            | none =>
              let r := sendTeamsReply env activity
                "⚠️ InnsynAI is not configured for your Microsoft 365 tenant." creds
              if r.1 then (.resp ⟨200, "no tenant"⟩, cs ++ r.2) else (.thrown, cs ++ r.2)
            | some tenantId =>
              let cs := cs ++ [Call.ragAsk (some tenantId) (some (jsTrim t))]
              if !env.ragOk then
                let r := sendTeamsReply env activity "❌ Something went wrong." creds
                if r.1 then (.resp ⟨200, "rag error"⟩, cs ++ r.2) else (.thrown, cs ++ r.2)
              else
                let r := sendTeamsReply env activity (env.ragAnswer.getD "No answer found.")
                  creds
                if r.1 then (.resp ⟨200, "ok"⟩, cs ++ r.2) else (.thrown, cs ++ r.2)

end TB1

/-- Replace the payload-supplied tenant field of an activity's interactive
value, when a value is present, leaving everything else unchanged. -/
def withValueTenant (a : Activity) (tid : Option String) : Activity :=
  { a with value := a.value.map fun v => { v with tenant_id := tid } }

/-- Concrete directory credential used by the witnesses. -/
def dirCred : TenantCredential :=
  { tenant_id := "tenant-7", bot_app_id := "bot-app-1", bot_app_password := "pw-1" }

/-- Concrete environment used by the witnesses: one known bot identity, one
mapped organization, a working token endpoint, platform and answer service. -/
def envA : Env :=
  { botDir := fun b => if b == "bot-app-1" then some dirCred else none
    orgDir := fun o => if o == "org-42" then some "tenant-7" else none
    orgDirAuto := fun o => if o == "org-42" then some "tenant-7" else none
    mint := fun _ _ _ => some "tok-1"
    mintOk := true
    placeholderOk := true
    placeholderId := some "ph-9"
    ragOk := true
    ragAnswer := some "Refunds are accepted within 30 days."
    ragQaLogId := some "log-9"
    ragStatus := none
    botAppId := "bot-app-1"
    botAppPassword := "pw-1"
    connectUrl := none }

/-- A cryptographically valid token for the known bot identity. -/
def jwtA : Jwt := { aud := "bot-app-1", iss := ISSUER, sigValid := true }

/-- A cryptographically valid token whose audience is unknown to the
directory. -/
def jwtB : Jwt := { aud := "bot-unknown", iss := ISSUER, sigValid := true }

/-- Bearer header carrying the known-bot token. -/
def authA : AuthHeader := { isBearer := true, token := jwtA }

/-- Bearer header carrying the unknown-audience token. -/
def authB : AuthHeader := { isBearer := true, token := jwtB }

/-- A concrete message activity from the mapped organization. -/
def activityA : Activity :=
  { type := some "message"
    id := some "act-1"
    text := some "What is our refund policy?"
    fromId := some "user-1"
    serviceUrl := some "https://smba.example"
    conversationId := some "conv-1"
    conversationTenantId := none
    channelDataTenantId := some "org-42"
    replyToId := none
    value := none }

/-- A concrete feedback submit payload. -/
def fbValA : FeedbackValue :=
  { action := "feedback", qa_log_id := some "log-9", feedback := some "down"
    teams_user_id := none, comment := none, tenant_id := none }

/-- A concrete interactive feedback activity (no text). -/
def activityF : Activity :=
  { activityA with text := none, value := some fbValA }

/-- C1: for every inbound POST /teams request with a parseable body bearing a
token whose audience claim does not resolve to a known tenant via the tenant
directory's bot-identity lookup, the part_001 handler responds 401 and sends
no platform message; the directory resolution of the audience happens before
signature verification (on resolution failure the verifier's only outbound
call is the directory lookup, never the key fetch) and it fails closed: the
credential is returned only when both the resolution and the cryptographic
verification succeed. -/
theorem claim1_unknown_audience_fails_closed
    (env : Env) (auth : AuthHeader) (activity : Activity)
    (hdir : env.botDir auth.token.aud = none) :
    (P1.handleTeams env ⟨"POST", some auth, some activity⟩).1 =
      HResult.resp ⟨401, "unauthorized"⟩ ∧
    sendsOf (P1.handleTeams env ⟨"POST", some auth, some activity⟩).2 = [] ∧
    (P1.verifyJwt env auth.token).2 = [Call.dirBotLookup auth.token.aud] ∧
    (∀ (t : Jwt) (c : TenantCredential),
      (P1.verifyJwt env t).1 = VerifyOutcome.ok c →
      env.botDir t.aud = some c ∧ jwtVerifyOk t t.aud = true) := by
  refine ⟨?_, ?_, ?_, ?_⟩
  · simp [P1.handleTeams, P1.verifyJwt, hdir]
  · simp [P1.handleTeams, P1.verifyJwt, hdir, sendsOf, Call.isSend]
  · simp [P1.verifyJwt, hdir]
  · intro t c h
    unfold P1.verifyJwt at h
    cases hbd : env.botDir t.aud with
    | none => rw [hbd] at h; simp at h
    | some ti =>
      rw [hbd] at h
      by_cases hs : jwtVerifyOk t t.aud = true
      · simp only [hs, if_true] at h
        have hc : ti = c := by simpa using h
        subst hc
        exact ⟨rfl, hs⟩
      · simp [hs] at h

/-- Witness for C1: a concrete cryptographically valid token whose audience
is unknown to the directory is rejected with 401 and nothing is sent. -/
theorem claim1_witness :
    envA.botDir authB.token.aud = none ∧
    (P1.handleTeams envA ⟨"POST", some authB, some activityA⟩).1 =
      HResult.resp ⟨401, "unauthorized"⟩ ∧
    sendsOf (P1.handleTeams envA ⟨"POST", some authB, some activityA⟩).2 = [] :=
  ⟨by decide,
   (claim1_unknown_audience_fails_closed envA authB activityA (by decide)).1,
   (claim1_unknown_audience_fails_closed envA authB activityA (by decide)).2.1⟩

/-- An optional string kept by the truthiness filter is the value itself. -/
theorem truthyVal_eq_some {a : Option String} {s : String}
    (h : truthyVal a = some s) : a = some s := by
  unfold truthyVal at h
  split at h
  · exact h
  · exact absurd h (by simp)

/-- C6 (amended): for every inbound request that lacks an Authorization
header, no outbound call of any kind is performed (no key fetch, directory
lookup, credential mint, answer query, or platform send); the part_001,
part_002 and part_003 handlers respond with the generic success response,
while the first teams-bridge document responds 401 unauthorized instead of
a generic success. -/
theorem claim6_missing_auth_generic_success_no_calls
    (env : Env) (method : String) (body : Option Activity) :
    P2.handleTeams env ⟨method, none, body⟩ = (okResp, []) ∧
    P1.handleTeams env ⟨method, none, body⟩ = (okResp, []) ∧
    P3.handleTeams env ⟨method, none, body⟩ = (okResp, []) ∧
    TB1.handleTeams env ⟨"POST", none, body⟩ =
      (HResult.resp ⟨401, "unauthorized"⟩, []) := by
  refine ⟨?_, ?_, ?_, ?_⟩
  · unfold P2.handleTeams
    split
    · rfl
    · cases body with
      | none => rfl
      | some a => rfl
  · unfold P1.handleTeams
    split
    · rfl
    · cases body with
      | none => rfl
      | some a => rfl
  · unfold P3.handleTeams
    split
    · rfl
    · cases body with
      | none => rfl
      | some a => rfl
  · simp [TB1.handleTeams, TB1.verifyBotFrameworkJwt]

/-- Counterexample to C6 as stated: in the first teams-bridge document a
concrete POST /teams request without an Authorization header is answered
401 unauthorized — an error status, not a generic success (though still
with zero outbound calls). -/
theorem claim6_counterexample :
    TB1.handleTeams envA ⟨"POST", none, some activityA⟩ =
      (HResult.resp ⟨401, "unauthorized"⟩, []) := by decide

/-- C7 (amended): for every inbound POST /teams request whose body is not
parseable JSON, the part_001 and part_002 handlers respond with the generic
success response and perform zero outbound calls; the first teams-bridge
document verifies the JWT before parsing, so with a valid token it has
already performed the directory bot lookup and the key fetch and then
responds 400 bad request. -/
theorem claim7_bad_json_generic_success_no_calls
    (env : Env) (auth : AuthHeader) (creds : TenantCredential)
    (hdir : env.botDir auth.token.aud = some creds)
    (haudne : auth.token.aud ≠ "")
    (hbear : auth.isBearer = true)
    (hvv : jwtVerifyOk auth.token auth.token.aud = true) :
    (∀ a2 : Option AuthHeader, P2.handleTeams env ⟨"POST", a2, none⟩ = (okResp, [])) ∧
    (∀ a2 : Option AuthHeader, P1.handleTeams env ⟨"POST", a2, none⟩ = (okResp, [])) ∧
    TB1.handleTeams env ⟨"POST", some auth, none⟩ =
      (HResult.resp ⟨400, "bad request"⟩,
       [Call.dirBotLookup auth.token.aud, Call.jwksFetch]) := by
  refine ⟨?_, ?_, ?_⟩
  · intro a2; simp [P2.handleTeams]
  · intro a2; simp [P1.handleTeams]
  · simp [TB1.handleTeams, TB1.verifyBotFrameworkJwt, hdir, haudne, hbear, hvv]

/-- Witness for C7: at a concrete request with a valid known-bot token and
an unparseable body, the store handlers answer ok with no calls while the
first teams-bridge document answers 400 after two outbound calls. -/
theorem claim7_witness :
    envA.botDir authA.token.aud = some dirCred ∧
    P2.handleTeams envA ⟨"POST", some authA, none⟩ = (okResp, []) ∧
    TB1.handleTeams envA ⟨"POST", some authA, none⟩ =
      (HResult.resp ⟨400, "bad request"⟩,
       [Call.dirBotLookup authA.token.aud, Call.jwksFetch]) :=
  ⟨by decide,
   (claim7_bad_json_generic_success_no_calls envA authA dirCred (by decide) (by decide)
      rfl (by decide)).1 (some authA),
   (claim7_bad_json_generic_success_no_calls envA authA dirCred (by decide) (by decide)
      rfl (by decide)).2.2⟩

/-- Counterexample to C7 as stated: in the first teams-bridge document a
concrete POST /teams request with a valid token and an unparseable body is
answered 400 bad request — an error status — after the directory bot lookup
and the key fetch were already performed (two outbound calls, not zero). -/
theorem claim7_counterexample :
    TB1.handleTeams envA ⟨"POST", some authA, none⟩ =
      (HResult.resp ⟨400, "bad request"⟩,
       [Call.dirBotLookup "bot-app-1", Call.jwksFetch]) := by decide

/-- C5 (amended): for every authenticated message event whose external org
id is present but whose tenant-directory resolution returns not-found,
zero calls are made to the answer service (neither ask nor feedback) and at
most one "not configured" notice is sent; the part_002 handler additionally
makes zero calls to the credential minter and sends nothing at all, while
the first teams-bridge document sends exactly one "not configured" notice
and performs exactly one credential mint — the mint used to send that
notice. -/
theorem claim5_unresolved_tenant_no_mint_no_ask
    (env : Env) (auth : AuthHeader) (creds : TenantCredential) (activity : Activity)
    (org t su cid : String)
    (hbear : auth.isBearer = true)
    (htype : activity.type = some "message")
    (hv : jwtVerifyOk auth.token env.botAppId = true)
    (horg : firstTruthy activity.channelDataTenantId activity.conversationTenantId = some org)
    (hnf : truthyVal (env.orgDirAuto org) = none)
    (hdirb : env.botDir auth.token.aud = some creds)
    (haudne : auth.token.aud ≠ "")
    (hvv : jwtVerifyOk auth.token auth.token.aud = true)
    (htext : activity.text = some t) (htne : t ≠ "")
    (hch : truthyVal activity.channelDataTenantId = some org)
    (hnfb : truthyVal (env.orgDir org) = none)
    (hsu : activity.serviceUrl = some su) (hsune : su ≠ "")
    (hcid : activity.conversationId = some cid) (hcidne : cid ≠ "")
    (hmintok : env.mintOk = true) :
    (P2.handleTeams env ⟨"POST", some auth, some activity⟩).1 = okResp ∧
    mintsOf (P2.handleTeams env ⟨"POST", some auth, some activity⟩).2 = [] ∧
    asksOf (P2.handleTeams env ⟨"POST", some auth, some activity⟩).2 = [] ∧
    feedbacksOf (P2.handleTeams env ⟨"POST", some auth, some activity⟩).2 = [] ∧
    sendsOf (P2.handleTeams env ⟨"POST", some auth, some activity⟩).2 = [] ∧
    (TB1.handleTeams env ⟨"POST", some auth, some activity⟩).1 =
      HResult.resp ⟨200, "no tenant"⟩ ∧
    asksOf (TB1.handleTeams env ⟨"POST", some auth, some activity⟩).2 = [] ∧
    feedbacksOf (TB1.handleTeams env ⟨"POST", some auth, some activity⟩).2 = [] ∧
    mintsOf (TB1.handleTeams env ⟨"POST", some auth, some activity⟩).2 =
      [Call.mintToken (some "botframework.com") creds.bot_app_id] ∧
    sendsOf (TB1.handleTeams env ⟨"POST", some auth, some activity⟩).2 =
      [Call.platformSend "POST" (some (TB1.normalizeServiceUrl su)) cid none
        (TB1.replyPayload activity
          "⚠️ InnsynAI is not configured for your Microsoft 365 tenant.")] := by
  refine ⟨?_, ?_, ?_, ?_, ?_, ?_, ?_, ?_, ?_, ?_⟩
  case refine_1 | refine_2 | refine_3 | refine_4 | refine_5 =>
    simp [P2.handleTeams, P2.verifyJwt, hbear, hv, horg, hnf,
      mintsOf, asksOf, feedbacksOf, sendsOf,
      Call.isMint, Call.isAsk, Call.isFeedback, Call.isSend]
  all_goals
    simp [TB1.handleTeams, TB1.verifyBotFrameworkJwt, TB1.sendTeamsReply,
      TB1.getBotFrameworkToken, hdirb, haudne, hbear, hvv, htype, htext, htne,
      hch, hnfb, hsu, hsune, hcid, hcidne, hmintok,
      mintsOf, asksOf, feedbacksOf, sendsOf,
      Call.isMint, Call.isAsk, Call.isFeedback, Call.isSend]

/-- Witness for C5: a concrete message event from an unmapped organization
triggers no mint, no answer-service call and no platform send in part_002,
while the first teams-bridge document mints once for its single notice. -/
theorem claim5_witness :
    truthyVal (envA.orgDirAuto "org-unmapped") = none ∧
    mintsOf (P2.handleTeams envA
      ⟨"POST", some authA,
        some { activityA with channelDataTenantId := some "org-unmapped" }⟩).2 = [] ∧
    asksOf (P2.handleTeams envA
      ⟨"POST", some authA,
        some { activityA with channelDataTenantId := some "org-unmapped" }⟩).2 = [] ∧
    mintsOf (TB1.handleTeams envA
      ⟨"POST", some authA,
        some { activityA with channelDataTenantId := some "org-unmapped" }⟩).2 =
      [Call.mintToken (some "botframework.com") dirCred.bot_app_id] :=
  ⟨by decide,
   (claim5_unresolved_tenant_no_mint_no_ask envA authA dirCred
      { activityA with channelDataTenantId := some "org-unmapped" } "org-unmapped"
      "What is our refund policy?" "https://smba.example" "conv-1"
      rfl rfl (by decide) (by decide) (by decide) (by decide) (by decide) (by decide)
      rfl (by decide) (by decide) (by decide) rfl (by decide) rfl (by decide)
      rfl).2.1,
   (claim5_unresolved_tenant_no_mint_no_ask envA authA dirCred
      { activityA with channelDataTenantId := some "org-unmapped" } "org-unmapped"
      "What is our refund policy?" "https://smba.example" "conv-1"
      rfl rfl (by decide) (by decide) (by decide) (by decide) (by decide) (by decide)
      rfl (by decide) (by decide) (by decide) rfl (by decide) rfl (by decide)
      rfl).2.2.1,
   (claim5_unresolved_tenant_no_mint_no_ask envA authA dirCred
      { activityA with channelDataTenantId := some "org-unmapped" } "org-unmapped"
      "What is our refund policy?" "https://smba.example" "conv-1"
      rfl rfl (by decide) (by decide) (by decide) (by decide) (by decide) (by decide)
      rfl (by decide) (by decide) (by decide) rfl (by decide) rfl (by decide)
      rfl).2.2.2.2.2.2.2.2.1⟩

/-- Counterexample to C5 as stated: at a concrete authenticated message
event whose directory resolution returns not-found, the first teams-bridge
document performs one credential mint (not zero) — the mint that sends its
single "not configured" notice. -/
theorem claim5_counterexample :
    mintsOf (TB1.handleTeams envA
      ⟨"POST", some authA,
        some { activityA with channelDataTenantId := some "org-unmapped" }⟩).2 =
      [Call.mintToken (some "botframework.com") "bot-app-1"] ∧
    sendsOf (TB1.handleTeams envA
      ⟨"POST", some authA,
        some { activityA with channelDataTenantId := some "org-unmapped" }⟩).2 =
      [Call.platformSend "POST" (some "https://smba.example") "conv-1" none
        (TB1.replyPayload { activityA with channelDataTenantId := some "org-unmapped" }
          "⚠️ InnsynAI is not configured for your Microsoft 365 tenant.")] := by decide

/-- C2 (amended): for every message event in which the phase-one
placeholder POST succeeds and the platform's response carries a message id
P, and the answer service call succeeds, the relay issues exactly one
update request whose URL targets activity id P and no second POST of the
final content; the update request is a PUT in the diagnostic build and in
part_002 (their complete send list is the placeholder POST followed by a
single PUT addressed to P), but part_003 issues its single update with the
PATCH method — it performs no PUT request at all. -/
theorem claim2_two_phase_single_put
    (env : Env) (auth : AuthHeader) (creds : TenantCredential) (activity : Activity)
    (su cid org tid tid3 t tok P : String)
    (hbear : auth.isBearer = true)
    (htype : activity.type = some "message")
    (hv : jwtVerifyOk auth.token env.botAppId = true)
    (horg : firstTruthy activity.channelDataTenantId activity.conversationTenantId = some org)
    (htid : truthyVal (env.orgDirAuto org) = some tid)
    (hval : activity.value = none)
    (htext : activity.text = some t)
    (htrim : jsTrim t ≠ "")
    (hsu : activity.serviceUrl = some su) (hsune : su ≠ "")
    (hcid : activity.conversationId = some cid) (hcidne : cid ≠ "")
    (hmint : env.mint (some org) env.botAppId env.botAppPassword = some tok)
    (hok : env.placeholderOk = true)
    (hpid : truthyVal env.placeholderId = some P)
    (hrag : env.ragOk = true)
    (hdir3 : env.botDir auth.token.aud = some creds)
    (hvv : jwtVerifyOk auth.token auth.token.aud = true)
    (htid3 : truthyVal (env.orgDir org) = some tid3) :
    sendsOf (Diag.handleTeams env ⟨"POST", some auth, some activity⟩).2 =
      [Call.platformSend "POST" (some su) cid none Diag.placeholderPayload,
       Call.platformSend "PUT" (some su) cid (some P) (Diag.finalPayload env)] ∧
    sendsOf (P2.handleTeams env ⟨"POST", some auth, some activity⟩).2 =
      [Call.platformSend "POST" (some su) cid none (P2.placeholderPayload activity),
       Call.platformSend "PUT" (some su) cid (some P) (P2.cardPayload env)] ∧
    sendsOf (P3.handleTeams env ⟨"POST", some auth, some activity⟩).2 =
      [Call.platformSend "POST" (some su) cid none (P3.placeholderPayload activity),
       Call.platformSend "PATCH" (some su) cid (some P) (P3.cardPayload env)] ∧
    putsOf (P3.handleTeams env ⟨"POST", some auth, some activity⟩).2 = [] := by
  have hpid3 : env.placeholderId = some P := truthyVal_eq_some hpid
  have htne : t ≠ "" := by
    intro h
    exact htrim (by rw [h]; rfl)
  refine ⟨?_, ?_, ?_, ?_⟩
  · simp [Diag.handleTeams, Diag.verifyJwt, Diag.getBotAccessToken,
      hbear, hv, horg, hsu, hcid, hmint, hpid, sendsOf, Call.isSend]
  · simp [P2.handleTeams, P2.verifyJwt, P2.messagePath, P2.getBotAccessToken,
      P2.sendPlaceholder, P2.patchWithCard,
      hbear, hv, horg, htid, hval, htext, htrim, hsu, hsune, hcid, hcidne,
      hmint, hpid, hrag, sendsOf, Call.isSend]
  · simp [P3.handleTeams, P3.verifyJwt, P3.messagePath, P3.getBotAccessToken,
      hdir3, hvv, horg, htid3, hval, htext, htne, hsu, hcid, hpid3,
      sendsOf, Call.isSend]
  · simp [P3.handleTeams, P3.verifyJwt, P3.messagePath, P3.getBotAccessToken,
      hdir3, hvv, horg, htid3, hval, htext, htne, hsu, hcid, hpid3,
      putsOf, Call.isPut]

/-- Witness for C2: on the concrete mapped message event with placeholder
id ph-9, the diagnostic build sends exactly the placeholder POST and one
PUT targeting ph-9, while part_003 performs zero PUT requests. -/
theorem claim2_witness :
    truthyVal envA.placeholderId = some "ph-9" ∧
    sendsOf (Diag.handleTeams envA ⟨"POST", some authA, some activityA⟩).2 =
      [Call.platformSend "POST" (some "https://smba.example") "conv-1" none
         Diag.placeholderPayload,
       Call.platformSend "PUT" (some "https://smba.example") "conv-1" (some "ph-9")
         (Diag.finalPayload envA)] ∧
    putsOf (P3.handleTeams envA ⟨"POST", some authA, some activityA⟩).2 = [] :=
  ⟨by decide,
   (claim2_two_phase_single_put envA authA dirCred activityA "https://smba.example"
      "conv-1" "org-42" "tenant-7" "tenant-7" "What is our refund policy?" "tok-1"
      "ph-9" rfl rfl (by decide) (by decide) (by decide) rfl rfl (by decide) rfl
      (by decide) rfl (by decide) rfl rfl (by decide) rfl (by decide) (by decide)
      (by decide)).1,
   (claim2_two_phase_single_put envA authA dirCred activityA "https://smba.example"
      "conv-1" "org-42" "tenant-7" "tenant-7" "What is our refund policy?" "tok-1"
      "ph-9" rfl rfl (by decide) (by decide) (by decide) rfl rfl (by decide) rfl
      (by decide) rfl (by decide) rfl rfl (by decide) rfl (by decide) (by decide)
      (by decide)).2.2.2⟩

/-- Counterexample to C2 as stated: on a concrete event with placeholder id
ph-9 and a successful answer, part_003 issues its single update with the
PATCH method and performs zero PUT requests, so no "exactly one update
(PUT)" exists in its trace. -/
theorem claim2_counterexample :
    putsOf (P3.handleTeams envA ⟨"POST", some authA, some activityA⟩).2 = [] ∧
    sendsOf (P3.handleTeams envA ⟨"POST", some authA, some activityA⟩).2 =
      [Call.platformSend "POST" (some "https://smba.example") "conv-1" none
         (P3.placeholderPayload activityA),
       Call.platformSend "PATCH" (some "https://smba.example") "conv-1" (some "ph-9")
         (P3.cardPayload envA)] := by decide

/-- C3 (amended): for every message event in which the phase-one
placeholder POST succeeds but the platform's response carries no message
id, the relay skips the update; the diagnostic build then issues exactly
one additional POST (not PUT) carrying the final answer content (its send
list is the placeholder POST followed by a single POST of the final
content, with no PUT), whereas part_002 issues no further send at all —
its only platform send is the placeholder POST, with no fallback. -/
theorem claim3_missing_id_fallback_post
    (env : Env) (auth : AuthHeader) (activity : Activity)
    (su cid org tid t tok : String)
    (hbear : auth.isBearer = true)
    (htype : activity.type = some "message")
    (hv : jwtVerifyOk auth.token env.botAppId = true)
    (horg : firstTruthy activity.channelDataTenantId activity.conversationTenantId = some org)
    (htid : truthyVal (env.orgDirAuto org) = some tid)
    (hval : activity.value = none)
    (htext : activity.text = some t)
    (htrim : jsTrim t ≠ "")
    (hsu : activity.serviceUrl = some su) (hsune : su ≠ "")
    (hcid : activity.conversationId = some cid) (hcidne : cid ≠ "")
    (hmint : env.mint (some org) env.botAppId env.botAppPassword = some tok)
    (hok : env.placeholderOk = true)
    (hpid : truthyVal env.placeholderId = none)
    (hrag : env.ragOk = true) :
    sendsOf (Diag.handleTeams env ⟨"POST", some auth, some activity⟩).2 =
      [Call.platformSend "POST" (some su) cid none Diag.placeholderPayload,
       Call.platformSend "POST" (some su) cid none (Diag.finalPayload env)] ∧
    sendsOf (P2.handleTeams env ⟨"POST", some auth, some activity⟩).2 =
      [Call.platformSend "POST" (some su) cid none (P2.placeholderPayload activity)] ∧
    (P2.handleTeams env ⟨"POST", some auth, some activity⟩).1 = okResp := by
  refine ⟨?_, ?_, ?_⟩
  · simp [Diag.handleTeams, Diag.verifyJwt, Diag.getBotAccessToken,
      hbear, hv, horg, hsu, hcid, hmint, hpid, sendsOf, Call.isSend]
  · simp [P2.handleTeams, P2.verifyJwt, P2.messagePath, P2.getBotAccessToken,
      P2.sendPlaceholder, hbear, hv, horg, htid, hval, htext, htrim, hsu, hsune,
      hcid, hcidne, hmint, hpid, hrag, sendsOf, Call.isSend]
  · simp [P2.handleTeams, P2.verifyJwt, P2.messagePath, P2.getBotAccessToken,
      P2.sendPlaceholder, hbear, hv, horg, htid, hval, htext, htrim, hsu, hsune,
      hcid, hcidne, hmint, hpid, hrag]

/-- Witness for C3: with a platform response carrying no placeholder id,
the diagnostic build sends the placeholder POST and one fallback POST of
the final content, while part_002 sends only the placeholder. -/
theorem claim3_witness :
    truthyVal ({ envA with placeholderId := none } : Env).placeholderId = none ∧
    sendsOf (Diag.handleTeams { envA with placeholderId := none }
        ⟨"POST", some authA, some activityA⟩).2 =
      [Call.platformSend "POST" (some "https://smba.example") "conv-1" none
         Diag.placeholderPayload,
       Call.platformSend "POST" (some "https://smba.example") "conv-1" none
         (Diag.finalPayload { envA with placeholderId := none })] :=
  ⟨by decide,
   (claim3_missing_id_fallback_post { envA with placeholderId := none } authA activityA
     "https://smba.example" "conv-1" "org-42" "tenant-7" "What is our refund policy?"
     "tok-1" rfl rfl (by decide) (by decide) (by decide) rfl rfl (by decide) rfl
     (by decide) rfl (by decide) rfl rfl (by decide) rfl).1⟩

/-- Counterexample to C3 as stated: at a concrete event whose successful
placeholder POST returns no message id, part_002 issues no additional POST
carrying the final content — its complete platform send list is just the
placeholder POST. -/
theorem claim3_counterexample :
    ({ envA with placeholderId := none } : Env).placeholderOk = true ∧
    sendsOf (P2.handleTeams { envA with placeholderId := none }
        ⟨"POST", some authA, some activityA⟩).2 =
      [Call.platformSend "POST" (some "https://smba.example") "conv-1" none
         (P2.placeholderPayload activityA)] := by decide

/-- C8 (amended): every question the part_002 handler sends to the answer
service is the event's text with surrounding whitespace trimmed and is
non-empty after trimming, so events whose text is absent or trims to empty
never yield an ask call there; the part_001 handler also sends the trimmed
text but filters only absent or empty text, so a whitespace-only event text
yields an ask whose question is empty; and the diagnostic build sends the
raw event text with no trimming or filtering at all. -/
theorem claim8_question_trimmed_and_filtered
    (env : Env) (method : String) (auth : Option AuthHeader) (activity : Activity) :
    (∀ tenant q,
      Call.ragAsk tenant q ∈ (P2.handleTeams env ⟨method, auth, some activity⟩).2 →
      ∃ t, activity.text = some t ∧ jsTrim t ≠ "" ∧ q = some (jsTrim t)) ∧
    (∀ tenant q,
      Call.ragAsk tenant q ∈ (P1.handleTeams env ⟨method, auth, some activity⟩).2 →
      ∃ t, activity.text = some t ∧ t ≠ "" ∧ q = some (jsTrim t)) ∧
    (∀ tenant q,
      Call.ragAsk tenant q ∈ (Diag.handleTeams env ⟨method, auth, some activity⟩).2 →
      q = activity.text) := by
  refine ⟨?_, ?_, ?_⟩
  · intro tenant q hmem
    unfold P2.handleTeams P2.messagePath P2.getBotAccessToken P2.sendPlaceholder
      P2.verifyJwt at hmem
    iterate 25 (all_goals try split at hmem)
    all_goals try simp_all [truthyVal, jsTruthy]
    iterate 10 (all_goals try split at hmem)
    all_goals simp_all [truthyVal, jsTruthy, P2.patchWithCard]
  · intro tenant q hmem
    unfold P1.handleTeams P1.messagePath P1.verifyJwt at hmem
    iterate 25 (all_goals try split at hmem)
    all_goals simp_all [P1.feedbackBody]
  · intro tenant q hmem
    unfold Diag.handleTeams Diag.verifyJwt Diag.getBotAccessToken at hmem
    iterate 25 (all_goals try split at hmem)
    all_goals try simp_all
    iterate 10 (all_goals try split at hmem)
    all_goals simp_all

/-- Witness for C8: the concrete ask call observed in the part_002 trace of
the mapped message event carries exactly the trimmed event text. -/
theorem claim8_witness :
    ∃ t, activityA.text = some t ∧ jsTrim t ≠ "" ∧
      (some "What is our refund policy?" : Option String) = some (jsTrim t) :=
  (claim8_question_trimmed_and_filtered envA "POST" (some authA) activityA).1
    (some "tenant-7") (some "What is our refund policy?") (by decide)

/-- Counterexample to C8 as stated: a concrete event whose text is a single
space passes part_001's filter, and the handler sends the answer service a
request whose question text is empty after trimming. -/
theorem claim8_counterexample :
    asksOf (P1.handleTeams envA
      ⟨"POST", some authA, some { activityA with text := some " " }⟩).2 =
      [Call.ragAsk (some "tenant-7") (some "")] := by decide

/-- C9: for every inbound interactive feedback event (payload with action
"feedback"), neither the part_002 nor the part_001 handler ever calls the
answer service's ask operation; each makes at most one call to the feedback
endpoint and then completes with a response (no uncaught exception). -/
theorem claim9_feedback_never_asks
    (env : Env) (method : String) (auth : Option AuthHeader)
    (activity : Activity) (v : FeedbackValue)
    (hval : activity.value = some v)
    (hact : v.action = "feedback") :
    asksOf (P2.handleTeams env ⟨method, auth, some activity⟩).2 = [] ∧
    (feedbacksOf (P2.handleTeams env ⟨method, auth, some activity⟩).2).length ≤ 1 ∧
    (P2.handleTeams env ⟨method, auth, some activity⟩).1 ≠ HResult.thrown ∧
    asksOf (P1.handleTeams env ⟨method, auth, some activity⟩).2 = [] ∧
    (feedbacksOf (P1.handleTeams env ⟨method, auth, some activity⟩).2).length ≤ 1 ∧
    (P1.handleTeams env ⟨method, auth, some activity⟩).1 ≠ HResult.thrown := by
  refine ⟨?_, ?_, ?_, ?_, ?_, ?_⟩
  all_goals
    first
      | (unfold P2.handleTeams P2.verifyJwt
         iterate 15 (all_goals try split)
         all_goals simp_all [asksOf, feedbacksOf, Call.isAsk, Call.isFeedback, okResp])
      | (unfold P1.handleTeams P1.verifyJwt
         iterate 15 (all_goals try split)
         all_goals simp_all [asksOf, feedbacksOf, Call.isAsk, Call.isFeedback, okResp])

/-- Witness for C9: the concrete feedback event produces no ask call and at
most one feedback call in part_002. -/
theorem claim9_witness :
    activityF.value = some fbValA ∧ fbValA.action = "feedback" ∧
    asksOf (P2.handleTeams envA ⟨"POST", some authA, some activityF⟩).2 = [] ∧
    (feedbacksOf (P2.handleTeams envA ⟨"POST", some authA, some activityF⟩).2).length ≤ 1 :=
  ⟨rfl, rfl,
   (claim9_feedback_never_asks envA "POST" (some authA) activityF fbValA rfl rfl).1,
   (claim9_feedback_never_asks envA "POST" (some authA) activityF fbValA rfl rfl).2.1⟩

/-- The payload-supplied tenant field of an interactive value is never read
by the part_002 handler: replacing it leaves the whole outcome unchanged. -/
theorem p2_value_tenant_unread (env : Env) (method : String)
    (auth : Option AuthHeader) (a : Activity) (t : Option String) :
    P2.handleTeams env ⟨method, auth, some (withValueTenant a t)⟩ =
      P2.handleTeams env ⟨method, auth, some a⟩ := by
  cases a with
  | mk ty id tx fr su cid ctid chtid rid val =>
    cases val with
    | none => rfl
    | some v =>
      cases v with
      | mk act ql fb tu cm tid => rfl

/-- The payload-supplied tenant field of an interactive value is never read
by the part_001 handler either. -/
theorem p1_value_tenant_unread (env : Env) (method : String)
    (auth : Option AuthHeader) (a : Activity) (t : Option String) :
    P1.handleTeams env ⟨method, auth, some (withValueTenant a t)⟩ =
      P1.handleTeams env ⟨method, auth, some a⟩ := by
  cases a with
  | mk ty id tx fr su cid ctid chtid rid val =>
    cases val with
    | none => rfl
    | some v =>
      cases v with
      | mk act ql fb tu cm tid => rfl

/-- C10: for every interactive feedback event, the tenant_id of every
outbound feedback request equals the internal tenant id freshly resolved
from the tenant directory for the event's external org id, in part_002 and
part_001 alike; and no tenant identifier carried inside the interactive
payload ever flows into the handler: two events differing only in the
payload-supplied tenant field produce identical outcomes and traces (hence
feedback requests with the same tenant_id). -/
theorem claim10_feedback_tenant_freshly_resolved
    (env : Env) (method : String) (auth : Option AuthHeader) (activity : Activity) :
    (∀ t1 t2 : Option String,
      P2.handleTeams env ⟨method, auth, some (withValueTenant activity t1)⟩ =
        P2.handleTeams env ⟨method, auth, some (withValueTenant activity t2)⟩ ∧
      P1.handleTeams env ⟨method, auth, some (withValueTenant activity t1)⟩ =
        P1.handleTeams env ⟨method, auth, some (withValueTenant activity t2)⟩) ∧
    (∀ fb : FeedbackBody,
      Call.ragFeedback fb ∈ (P2.handleTeams env ⟨method, auth, some activity⟩).2 →
      ∃ org, firstTruthy activity.channelDataTenantId activity.conversationTenantId =
          some org ∧
        truthyVal (env.orgDirAuto org) = some fb.tenant_id) ∧
    (∀ fb : FeedbackBody,
      Call.ragFeedback fb ∈ (P1.handleTeams env ⟨method, auth, some activity⟩).2 →
      ∃ org, firstTruthy activity.channelDataTenantId activity.conversationTenantId =
          some org ∧
        truthyVal (env.orgDir org) = some fb.tenant_id) := by
  refine ⟨?_, ?_, ?_⟩
  · intro t1 t2
    exact ⟨by rw [p2_value_tenant_unread, p2_value_tenant_unread],
           by rw [p1_value_tenant_unread, p1_value_tenant_unread]⟩
  · intro fb hmem
    unfold P2.handleTeams P2.messagePath P2.getBotAccessToken P2.sendPlaceholder
      P2.verifyJwt at hmem
    iterate 25 (all_goals try split at hmem)
    all_goals try simp_all [P2.feedbackBody]
    iterate 10 (all_goals try split at hmem)
    all_goals simp_all [truthyVal, jsTruthy, P2.feedbackBody, P2.patchWithCard]
  · intro fb hmem
    unfold P1.handleTeams P1.messagePath P1.verifyJwt at hmem
    iterate 25 (all_goals try split at hmem)
    all_goals simp_all [P1.feedbackBody]

/-- Witness for C10: the concrete feedback request observed in the part_002
trace carries the directory-resolved tenant id for org-42. -/
theorem claim10_witness :
    ∃ org, firstTruthy activityF.channelDataTenantId activityF.conversationTenantId =
        some org ∧
      truthyVal (envA.orgDirAuto org) =
        some (P2.feedbackBody "tenant-7" activityF fbValA).tenant_id :=
  (claim10_feedback_tenant_freshly_resolved envA "POST" (some authA) activityF).2.1
    (P2.feedbackBody "tenant-7" activityF fbValA) (by decide)

end TeamsBridge
